import Mathlib

/-
  Verification of the attention mechanism framework
  (src/attention_modules/target_attention.py, src/attention_modules/attention_mechanisms.py,
  src/main.py, src/tools/training.py).

  Tensors are shallowly embedded as real-valued functions over Fin-indexed axes;
  float arithmetic is modelled by exact real arithmetic.  Python exceptions are
  modelled by the Except monad over an explicit error type.
-/

set_option maxHeartbeats 1000000

namespace AttnMech

/-- A 3-axis real tensor indexed as [dim0, dim1, dim2]. -/
def Tensor3 (a b c : ℕ) : Type := Fin a → Fin b → Fin c → ℝ

/-- A 2-axis real tensor (matrix). -/
def Tensor2 (a b : ℕ) : Type := Fin a → Fin b → ℝ

/-- A 3-axis tensor packaged with its runtime shape (a torch.Tensor whose shape
is only known at run time). -/
structure DynTensor3 : Type where
  d0 : ℕ
  d1 : ℕ
  d2 : ℕ
  data : Tensor3 d0 d1 d2

/-- A 2-axis tensor packaged with its runtime shape. -/
structure DynMat : Type where
  r : ℕ
  c : ℕ
  data : Tensor2 r c

/-- A torch.Tensor value of either rank, as stored in untyped instance
attributes such as K_alignment / Q_alignment. -/
inductive PyTensorVal : Type
  | mat (M : DynMat)
  | t3 (T : DynTensor3)

/-- Python exceptions that the modelled code can raise. `shapeMismatchError`
stands for the exception class named by the spec; the source never defines or
raises it, and it is included only so that statements about it can be made. -/
inductive PyError : Type
  | attributeError (msg : String)
  | typeError (msg : String)
  | unboundLocalError (msg : String)
  | runtimeError (msg : String)
  | shapeMismatchError (msg : String)
  deriving DecidableEq, Repr

/-- torch.nn.functional.elu with the default alpha = 1:
elu(x) = x for x > 0 and exp(x) - 1 otherwise. -/
noncomputable def elu (x : ℝ) : ℝ := if 0 < x then x else Real.exp x - 1

/-- Elementwise ELU on a 3-axis tensor. -/
noncomputable def eluT {a b c : ℕ} (X : Tensor3 a b c) : Tensor3 a b c :=
  fun i j k => elu (X i j k)

/-- nn.Conv1d with kernel_size=1: out[b, o, t] = bias o + sum_i w[o, i] * X[b, i, t].
The kernel axis of the torch weight [out, in, 1] is collapsed. -/
noncomputable def conv1d_k1 {o i bt s : ℕ} (w : Tensor2 o i) (bias : Fin o → ℝ)
    (X : Tensor3 bt i s) : Tensor3 bt o s :=
  fun b c t => bias c + ∑ j, w c j * X b j t

/-- tensor.permute(0, 2, 1): swap the last two axes. -/
def permute021 {a b c : ℕ} (X : Tensor3 a b c) : Tensor3 a c b :=
  fun i k j => X i j k

/-- Q.matmul(Kt) where Q is 2-D [n, d] broadcast against a batched Kt [bt, d, s]:
out[b, i, t] = sum_c Q[i, c] * Kt[b, c, t]. -/
noncomputable def matmul2_bmm {n d bt s : ℕ} (Q : Tensor2 n d) (Kt : Tensor3 bt d s) :
    Tensor3 bt n s :=
  fun b i t => ∑ c, Q i c * Kt b c t

/-- A.matmul(V) for batched A [bt, n, s] and V [bt, s, d]. -/
noncomputable def bmm3 {bt n s d : ℕ} (A : Tensor3 bt n s) (V : Tensor3 bt s d) :
    Tensor3 bt n d :=
  fun b i c => ∑ t, A b i t * V b t c

/-- F.softmax(E, dim=-1) in exact real arithmetic:
softmax(E)[b, i, j] = exp E[b, i, j] / sum_k exp E[b, i, k]. -/
noncomputable def softmax_last {a b c : ℕ} (E : Tensor3 a b c) : Tensor3 a b c :=
  fun i j k => Real.exp (E i j k) / ∑ l, Real.exp (E i j l)

/-!  TargetAttention (src/attention_modules/target_attention.py). -/

/-- State of a TargetAttention module (target_attention.py, class TargetAttention).
Learned layers are represented by their weight/bias tensors; the kernel axis of
the two Conv1d layers (kernel_size=1) is collapsed.  `W_k`, `W_v`, `W_q` exist
only when the module was built with multihead=True, hence the Option. -/
structure TargetAttention (numLabels embeddingDim latentDocDim : ℕ) : Type where
  scale : Bool
  multihead : Bool
  num_heads : Option ℕ
  K_weight : Tensor2 latentDocDim latentDocDim
  K_bias : Fin latentDocDim → ℝ
  V_weight : Tensor2 latentDocDim latentDocDim
  V_bias : Fin latentDocDim → ℝ
  Q_mat_weight : Tensor2 numLabels latentDocDim
  Q : Tensor2 numLabels latentDocDim
  W_k : Option (Tensor2 latentDocDim latentDocDim × (Fin latentDocDim → ℝ))
  W_v : Option (Tensor2 latentDocDim latentDocDim × (Fin latentDocDim → ℝ))
  W_q : Option (Tensor2 latentDocDim latentDocDim × (Fin latentDocDim → ℝ))
  K_alignment : Option PyTensorVal
  Q_alignment : Option PyTensorVal

/-- TargetAttention.__init__ (target_attention.py lines 43-97).  The xavier
draws for the weights are random at run time and are therefore passed in as
arguments; every bias is filled with the constant 0.01.  Line 78 sets
self.Q to a clone of self.Q_mat.weight, i.e. to the value Qw it holds at
construction time.  K_alignment and Q_alignment start as None. -/
def TargetAttention.init (n ed d : ℕ) (scale multihead : Bool) (num_heads : Option ℕ)
    (Kw Vw : Tensor2 d d) (Qw : Tensor2 n d) (Wkw Wvw Wqw : Tensor2 d d) :
    TargetAttention n ed d :=
  { scale := scale
    multihead := multihead
    num_heads := num_heads
    K_weight := Kw
    K_bias := fun _ => 0.01
    V_weight := Vw
    V_bias := fun _ => 0.01
    Q_mat_weight := Qw
    Q := Qw
    W_k := if multihead then some (Wkw, fun _ => 0.01) else none
    W_v := if multihead then some (Wvw, fun _ => 0.01) else none
    W_q := if multihead then some (Wqw, fun _ => 0.01) else none
    K_alignment := none
    Q_alignment := none }

/-- Energy score computation of the non-multihead branch of
TargetAttention.forward (target_attention.py lines 138-141):
E = Q.matmul(K.permute(0, 2, 1)), divided elementwise by
np.sqrt(self._embedding_dim) when the scale flag is set.  `ed` is the
configured embedding_dim, which is independent of the channel dimension d. -/
noncomputable def target_energy {n d bt s : ℕ} (scale : Bool) (ed : ℕ)
    (Q : Tensor2 n d) (K : Tensor3 bt s d) : Tensor3 bt n s :=
  if scale then
    fun b i t => matmul2_bmm Q (permute021 K) b i t / Real.sqrt (ed : ℝ)
  else
    matmul2_bmm Q (permute021 K)

/-- The non-multihead branch of TargetAttention.forward (target_attention.py
lines 118-121, 134-149, 151-154).  Returns (C, A) together with the module
state after the call: lines 151-152 overwrite self.K_alignment and
self.Q_alignment with the K and Q of this call (line 121, Q.to(device), does
not change values).  The multihead branch (lines 123-133) has result shapes
that depend on num_heads and is modelled separately where needed. -/
noncomputable def TargetAttention.forward_base {n ed d bt s : ℕ}
    (m : TargetAttention n ed d) (H : Tensor3 bt d s) :
    Tensor3 bt n d × Tensor3 bt n s × TargetAttention n ed d :=
  let K := permute021 (eluT (conv1d_k1 m.K_weight m.K_bias H))
  let V := permute021 (eluT (conv1d_k1 m.V_weight m.V_bias H))
  let Q := m.Q
  let E := target_energy m.scale ed Q K
  let A := softmax_last E
  let C := bmm3 A V
  (C, A,
    { m with
      K_alignment := some (.t3 ⟨bt, s, d, K⟩)
      Q_alignment := some (.mat ⟨n, d, Q⟩) })

/-- TargetAttention.forward called on an input tensor H of arbitrary runtime
shape [d0, d1, d2].  The first operation, self.K(H) (line 118), is a Conv1d
with in_channels = latent_doc_dim; torch raises a RuntimeError when the channel
axis d1 of the input does not equal in_channels.  No exception class named
ShapeMismatchError exists anywhere in the source. -/
noncomputable def TargetAttention.forward_checked {n ed d : ℕ}
    (m : TargetAttention n ed d) (H : DynTensor3) :
    Except PyError (Tensor3 H.d0 n d × Tensor3 H.d0 n H.d2 × TargetAttention n ed d) :=
  if h : H.d1 = d then
    .ok (m.forward_base (fun b c t => H.data b (Fin.cast h.symm c) t))
  else
    .error (.runtimeError "Conv1d: expected input channels to equal in_channels")

/-!  Multi-head reshape utility.  The file attention_modules/multihead_attention.py
is imported by the source but absent from src, so the two functions are
modelled from the spec. -/

/-- Modelled from the spec: `transpose_qkv` of attention_modules/multihead_attention.py,
a file missing from src.  Spec section 4.5: given [batch, n, d] and head count h,
produce [batch*h, n, d/h] by partitioning the channel axis into h contiguous
groups and stacking them along the batch axis.  Flattened indices follow the
d2l.ai reshape/permute convention cited in the source header: new batch index
beta*h + gamma for batch beta and head gamma, and original channel
gamma*(d/h) + c for within-head channel c. -/
def transpose_qkv {bt n d : ℕ} (X : Tensor3 bt n d) (h : ℕ) :
    Tensor3 (bt * h) n (d / h) :=
  fun bh i c =>
    have hh : 0 < h := by
      rcases Nat.eq_zero_or_pos h with h0 | h0
      · exact absurd c.isLt (by simp [h0])
      · exact h0
    X ⟨(bh : ℕ) / h, Nat.div_lt_of_lt_mul (Nat.mul_comm bt h ▸ bh.isLt)⟩
      i
      ⟨((bh : ℕ) % h) * (d / h) + (c : ℕ), by
        have hq : (bh : ℕ) % h < h := Nat.mod_lt _ hh
        calc (bh : ℕ) % h * (d / h) + (c : ℕ)
            < ((bh : ℕ) % h + 1) * (d / h) := by
              have hc := c.isLt
              rw [Nat.add_mul, Nat.one_mul]
              omega
          _ ≤ h * (d / h) := Nat.mul_le_mul_right _ hq
          _ = d / h * h := Nat.mul_comm _ _
          _ ≤ d := Nat.div_mul_le_self d h⟩

/-- Modelled from the spec: `transpose_output` of
attention_modules/multihead_attention.py, a file missing from src.  Spec
section 4.5: the exact inverse of the split, restoring [batch, n, dh*h] from
[batch*h, n, dh] with the same index conventions. -/
def transpose_output {bt h n dh : ℕ} (X : Tensor3 (bt * h) n dh) :
    Tensor3 bt n (dh * h) :=
  fun b i c =>
    have hdh : 0 < dh := by
      rcases Nat.eq_zero_or_pos dh with h0 | h0
      · exact absurd c.isLt (by simp [h0])
      · exact h0
    X ⟨(b : ℕ) * h + (c : ℕ) / dh, by
        have h1 : (c : ℕ) / dh < h := Nat.div_lt_of_lt_mul c.isLt
        calc (b : ℕ) * h + (c : ℕ) / dh
            < (b : ℕ) * h + h := by omega
          _ = ((b : ℕ) + 1) * h := by ring
          _ ≤ bt * h := Nat.mul_le_mul_right _ b.isLt⟩
      i
      ⟨(c : ℕ) % dh, Nat.mod_lt _ hdh⟩

/-!  The attention dispatcher (src/attention_modules/attention_mechanisms.py,
class Attention). -/

/-- The attention layer held by the dispatcher.  Only TargetAttention has its
class available under src; the classes of the other recognized variants are
imported from files missing from src and are represented opaquely by their
variant name. -/
inductive AttLayer (n ed d : ℕ) : Type
  | target (m : TargetAttention n ed d)
  | other (name : String)

/-- State of a constructed Attention dispatcher (attention_mechanisms.py
lines 97-212).  `attention_layer` is None exactly when the att_module string
matched no branch of the elif chain, in which case the attribute is simply
never assigned.  `Q` models the attribute assigned on line 123; since that
line raises before completing for the target variant, it is none in every
constructible state. -/
structure AttentionState (n ed d : ℕ) : Type where
  att_module : String
  scale : Bool
  multihead : Bool
  num_heads : Option ℕ
  num_cats : Option ℕ
  gamma : Option ℝ
  code2cat_map : Option (List ℕ)
  MH_output : Option (Tensor2 d d × (Fin d → ℝ))
  attention_layer : Option (AttLayer n ed d)
  Q : Option (Tensor2 n d)

/-- The attention-module names recognized by the elif chain of
Attention.__init__ (attention_mechanisms.py lines 116-212). -/
def recognized_variants : List String :=
  ["target", "label", "alternate", "hierarchical_target", "hierarchical_context",
   "hierarchical_double_attention", "hierarchical_label", "context", "context_diff",
   "max_masked", "rank_masked"]

/-- Attention.__init__ (attention_mechanisms.py lines 83-212).  The random
weight draws are passed as arguments.  MH_output (lines 112-114) is created
exactly when multihead is set.  For att_module == "target", lines 117-122
construct a TargetAttention and line 123 then evaluates
self.attention_layer.Q.weight: the attribute Q of TargetAttention is a plain
torch.Tensor (the clone made on line 78 of target_attention.py), and
torch.Tensor has no attribute named weight, so line 123 raises AttributeError
and construction never completes.  For every other recognized name the layer
class lives in a file missing from src and is represented opaquely; for an
unrecognized name no branch fires, no error is raised, and attention_layer is
never assigned.  No validation of num_heads (presence or divisibility) occurs
anywhere in __init__, and no class named ConfigurationError exists in the
source. -/
def Attention.init (n ed d : ℕ) (att_module : String) (scale multihead : Bool)
    (num_heads : Option ℕ) (num_cats : Option ℕ) (gamma : Option ℝ)
    (code2cat_map : Option (List ℕ)) (MHw : Tensor2 d d) (MHb : Fin d → ℝ) :
    Except PyError (AttentionState n ed d) :=
  let mh_output := if multihead then some (MHw, MHb) else none
  if att_module = "target" then
    .error (.attributeError "Tensor object has no attribute weight")
  else if att_module ∈ recognized_variants then
    .ok { att_module := att_module, scale := scale, multihead := multihead
          num_heads := num_heads, num_cats := num_cats, gamma := gamma
          code2cat_map := code2cat_map, MH_output := mh_output
          attention_layer := some (.other att_module), Q := none }
  else
    .ok { att_module := att_module, scale := scale, multihead := multihead
          num_heads := num_heads, num_cats := num_cats, gamma := gamma
          code2cat_map := code2cat_map, MH_output := mh_output
          attention_layer := none, Q := none }

/-- The guard in main() (src/main.py lines 521-523): when multihead is set and
num_heads was not supplied, a TypeError is raised.  This is the only
num_heads validation in the repository, and it does not check divisibility. -/
def main_num_heads_guard (multihead : Bool) (num_heads : Option ℕ) :
    Except PyError Unit :=
  if multihead ∧ num_heads = none then
    .error (.typeError "Enter number of attention heads when multihead is set to True.")
  else
    .ok ()

/-- The else branch of Attention.forward (attention_mechanisms.py lines
231-233 and 240-242), i.e. the path taken when multihead is False.  Evaluation
order of line 242, self.attention_layer(H=H, Q=Q): the callee
self.attention_layer is looked up first (AttributeError when the attribute was
never assigned), then the arguments H and Q are evaluated left to right (the
local Q is bound on line 233 only when att_module == "target", otherwise
UnboundLocalError), and finally the call is made: TargetAttention.forward
accepts only H, so the keyword argument Q raises a TypeError.  The forward
methods of the variant classes missing from src also expose forward(H) per
spec section 6, so the same TypeError applies on the opaque layers; that
branch is unreachable from Attention.init anyway, since a non-target layer is
only built when att_module is not "target", leaving Q unbound.  The multihead
branch (lines 235-239) invokes layer classes from files missing in src and is
not modelled. -/
def Attention.forward_no_multihead {n ed d : ℕ} (st : AttentionState n ed d)
    (H : DynTensor3) :
    Except PyError (Tensor3 H.d0 n d × Tensor3 H.d0 n H.d2) :=
  -- lines 231-233: Q is a local, bound only when att_module == "target"
  let qBound : Except PyError (Option (Tensor2 n d)) :=
    if st.att_module = "target" then
      match st.Q with
      | none => .error (.attributeError "Attention object has no attribute Q")
      | some q => .ok (some q)
    else
      .ok none
  match qBound with
  | .error e => .error e
  | .ok qb =>
    -- line 242: evaluate self.attention_layer, then H, then Q, then call
    match st.attention_layer with
    | none => .error (.attributeError "Attention object has no attribute attention_layer")
    | some _layer =>
      match qb with
      | none => .error (.unboundLocalError "local variable Q referenced before assignment")
      | some _q =>
        .error (.typeError "forward() got an unexpected keyword argument Q")

/-!  Spec-side formulation of the base attention algorithm (spec section 4.2),
used to compare against the source translation for the refinement claim. -/

/-- The base attention computation, written from the words of spec section 4.2:
K and V are obtained by applying two independent per-position linear maps to H,
each followed by an ELU nonlinearity, then transposed so that the sequence axis
precedes the channel axis; E is the batched matrix product of Q with the
transpose of K; if the scale flag is set E is divided elementwise by the square
root of the configured embedding dimension; A is the softmax of E along the
last (sequence) axis; and C is the batched matrix product of A with V. -/
noncomputable def spec_base_attention {n d bt s : ℕ} (ed : ℕ) (scale : Bool)
    (Kw : Tensor2 d d) (Kb : Fin d → ℝ) (Vw : Tensor2 d d) (Vb : Fin d → ℝ)
    (Q : Tensor2 n d) (H : Tensor3 bt d s) :
    Tensor3 bt n d × Tensor3 bt n s :=
  let K : Tensor3 bt s d := fun b t c => elu (Kb c + ∑ j, Kw c j * H b j t)
  let V : Tensor3 bt s d := fun b t c => elu (Vb c + ∑ j, Vw c j * H b j t)
  let E0 : Tensor3 bt n s := fun b i t => ∑ c, Q i c * K b t c
  let E : Tensor3 bt n s :=
    if scale then (fun b i t => E0 b i t / Real.sqrt (ed : ℝ)) else E0
  let A := softmax_last E
  (fun b i c => ∑ t, A b i t * V b t c, A)

/-!  External training step (src/tools/training.py). -/

/-- One optimizer.step() of the external training loop (training.py line 111)
as it acts on a TargetAttention module: the optimizer assigns new values to the
registered parameters of the module (the weights and biases of the K and V
Conv1d layers and Q_mat.weight; the multihead linears, when present, are
analogous and are irrelevant to the claims).  The attribute Q is a plain
tensor created by clone() at construction (target_attention.py line 78), not a
registered parameter, so optimizer.step() does not touch it. -/
def TargetAttention.optimizer_step {n ed d : ℕ} (m : TargetAttention n ed d)
    (Kw' Vw' : Tensor2 d d) (Kb' Vb' : Fin d → ℝ) (Qw' : Tensor2 n d) :
    TargetAttention n ed d :=
  { m with
    K_weight := Kw', K_bias := Kb', V_weight := Vw', V_bias := Vb'
    Q_mat_weight := Qw' }

/-!  Helper lemmas about softmax rows. -/

lemma softmax_last_nonneg {a b c : ℕ} (E : Tensor3 a b c)
    (i : Fin a) (j : Fin b) (k : Fin c) : 0 ≤ softmax_last E i j k := by
  unfold softmax_last
  exact div_nonneg (Real.exp_nonneg _)
    (Finset.sum_nonneg fun _ _ => Real.exp_nonneg _)

lemma softmax_last_row_sum {a b c : ℕ} (E : Tensor3 a b c)
    (i : Fin a) (j : Fin b) (k0 : Fin c) :
    (∑ k, softmax_last E i j k) = 1 := by
  unfold softmax_last
  rw [← Finset.sum_div]
  have hpos : 0 < ∑ l, Real.exp (E i j l) := by
    haveI : Nonempty (Fin c) := ⟨k0⟩
    exact Finset.sum_pos (fun _ _ => Real.exp_pos _) Finset.univ_nonempty
  exact div_self (ne_of_gt hpos)

/-!  Concrete fixtures for witnesses and counterexamples. -/

/-- An all-zero matrix, standing in for a concrete weight draw. -/
def zeros2 (a b : ℕ) : Tensor2 a b := fun _ _ => 0

/-- The TargetAttention module of the spec scenario: num_labels=4,
embedding_dim=8, latent_doc_dim=8, scale=False, multihead=False. -/
def ta_scenario : TargetAttention 4 8 8 :=
  TargetAttention.init 4 8 8 false false none
    (zeros2 8 8) (zeros2 8 8) (zeros2 4 8) (zeros2 8 8) (zeros2 8 8) (zeros2 8 8)

/-- A concrete input of the scenario shape [batch=2, channels=8, sequence=6]. -/
def H_scenario : Tensor3 2 8 6 := fun _ _ _ => 0

/-- The scenario input packaged with its runtime shape. -/
def H_dyn : DynTensor3 := ⟨2, 8, 6, fun _ _ _ => 0⟩

/-- A concrete input whose channel axis is 7 instead of the configured 8. -/
def H_bad : DynTensor3 := ⟨2, 7, 6, fun _ _ _ => 0⟩

/-- A dispatcher state as Attention.init builds it for att_module="label"
with multihead disabled. -/
def st_label : AttentionState 4 8 8 :=
  { att_module := "label", scale := false, multihead := false, num_heads := none
    num_cats := none, gamma := none, code2cat_map := none, MH_output := none
    attention_layer := some (.other "label"), Q := none }

/-- A freshly constructed 1-label, 1-channel TargetAttention whose query
weight draw is the zero matrix. -/
def ta_c7_init : TargetAttention 1 1 1 :=
  TargetAttention.init 1 1 1 false false none
    (zeros2 1 1) (zeros2 1 1) (zeros2 1 1) (zeros2 1 1) (zeros2 1 1) (zeros2 1 1)

/-- The same module after one optimizer step that sets Q_mat.weight to the
all-ones matrix. -/
def ta_c7_updated : TargetAttention 1 1 1 :=
  ta_c7_init.optimizer_step (zeros2 1 1) (zeros2 1 1)
    (fun _ => 0) (fun _ => 0) (fun _ _ => 1)

/-- A concrete 1x1x1 input. -/
def H_c7 : Tensor3 1 1 1 := fun _ _ _ => 0

/-- A concrete [1, 1, 4] tensor whose channel entries are 0, 1, 2, 3. -/
def x_c6 : Tensor3 1 1 4 := fun _ _ c => ((c : ℕ) : ℝ)

/-!  Claim theorems. -/

/-- Claim C1: the base attention computation, for every query matrix Q,
document representation H and scale flag, follows exactly the specified steps:
K and V arise from two independent per-position linear maps (kernel-size-1
convolutions) on H followed by ELU and a transpose putting the sequence axis
before the channel axis, E is the batched product of Q with the transpose of
K (scaled when the flag is set), A is the softmax of E along the last axis,
and C is the batched product of A with V.  The source translation of
TargetAttention.forward coincides with the spec-side formulation. -/
theorem base_attention_follows_spec (n ed d bt s : ℕ)
    (m : TargetAttention n ed d) (H : Tensor3 bt d s) :
    (m.forward_base H).1 =
      (spec_base_attention ed m.scale m.K_weight m.K_bias m.V_weight m.V_bias
        m.Q H).1 ∧
    (m.forward_base H).2.1 =
      (spec_base_attention ed m.scale m.K_weight m.K_bias m.V_weight m.V_bias
        m.Q H).2 :=
  ⟨rfl, rfl⟩

/-- Claim C2: every entry of the attention weight matrix A returned by a
forward pass is non-negative, and for each fixed batch and label index its
entries along the sequence axis sum to 1 within tolerance 1e-5 (in exact real
arithmetic the sum is exactly 1). -/
theorem attention_weights_prob_dist (n ed d bt s : ℕ)
    (m : TargetAttention n ed d) (H : Tensor3 bt d s)
    (b : Fin bt) (i : Fin n) (j : Fin s) :
    0 ≤ (m.forward_base H).2.1 b i j ∧
      |(∑ k, (m.forward_base H).2.1 b i k) - 1| ≤ 1 / 100000 := by
  have hA : (m.forward_base H).2.1 =
      softmax_last (target_energy m.scale ed m.Q
        (permute021 (eluT (conv1d_k1 m.K_weight m.K_bias H)))) := rfl
  rw [hA]
  refine ⟨softmax_last_nonneg _ _ _ _, ?_⟩
  rw [softmax_last_row_sum _ _ _ j]
  norm_num

/-- Claim C4: for every Q, K and configured embedding_dim, the energy matrix
with the scale flag enabled equals the unscaled energy matrix divided
elementwise by the square root of the configured embedding dimension ed, which
is a variable independent of the channel dimension d of Q and K. -/
theorem energy_scale_relation (n d bt s ed : ℕ) (Q : Tensor2 n d)
    (K : Tensor3 bt s d) (b : Fin bt) (i : Fin n) (t : Fin s) :
    target_energy true ed Q K b i t =
      target_energy false ed Q K b i t / Real.sqrt (ed : ℝ) :=
  rfl

/-- Claim C3 (code bug): in the scenario num_labels=4, embedding_dim=8,
latent_doc_dim=8, variant="target", scale=False, multihead=False, the claim
says forward(H) returns C of shape (2,4,8) and A of shape (2,4,6); the code
instead fails before any forward call is possible: Attention.__init__
evaluates self.attention_layer.Q.weight on a plain tensor and raises
AttributeError, so the dispatcher for the target variant cannot even be
constructed. -/
theorem scenario_target_construction_raises :
    Attention.init 4 8 8 "target" false false none none none none
        (zeros2 8 8) (fun _ => 0) =
      Except.error (PyError.attributeError "Tensor object has no attribute weight") :=
  rfl

/-- Claim C5 (counterexample): constructing the dispatcher with the
unrecognized variant name "foo", with multihead enabled and num_heads=3 not
dividing latent_doc_dim=8, raises nothing at all: construction succeeds,
contradicting the claim that a ConfigurationError is raised. -/
theorem construction_no_validation_counterexample :
    (Attention.init 4 8 8 "foo" false true (some 3) none none none
        (zeros2 8 8) (fun _ => 0)).isOk = true :=
  rfl

/-- Claim C5 (amended): construction performs no validation: for every
configuration whose variant name is unrecognized, Attention.init succeeds
(raising nothing, whatever multihead and num_heads are) and leaves the
dispatcher without an attention layer; no ConfigurationError class exists in
the source, and the only num_heads check in the repository is the TypeError
guard in main() for a missing num_heads, which checks no divisibility. -/
theorem construction_no_validation (n ed d : ℕ) (att_module : String)
    (scale multihead : Bool) (num_heads : Option ℕ) (num_cats : Option ℕ)
    (gamma : Option ℝ) (code2cat_map : Option (List ℕ))
    (MHw : Tensor2 d d) (MHb : Fin d → ℝ)
    (hvar : att_module ∉ recognized_variants) :
    ∃ st : AttentionState n ed d,
      Attention.init n ed d att_module scale multihead num_heads num_cats gamma
          code2cat_map MHw MHb = .ok st ∧
        st.attention_layer = none := by
  have h1 : ¬(att_module = "target") := by
    intro h
    exact hvar (by simp [recognized_variants, h])
  unfold Attention.init
  rw [if_neg h1, if_neg hvar]
  exact ⟨_, rfl, rfl⟩

/-- Witness for the amended claim C5, at the concrete unrecognized variant
name "foo" with multihead enabled and num_heads = 3. -/
theorem construction_no_validation_witness :
    ("foo" ∉ recognized_variants) ∧
      ∃ st : AttentionState 4 8 8,
        Attention.init 4 8 8 "foo" false true (some 3) none none none
            (zeros2 8 8) (fun _ => 0) = .ok st ∧
          st.attention_layer = none :=
  ⟨by decide, construction_no_validation 4 8 8 "foo" false true (some 3)
    none none none (zeros2 8 8) (fun _ => 0) (by decide)⟩

/-- Claim C6: for every array x of shape [batch, n, d] and every head count h
dividing d, merging the head-split of x restores x exactly, elementwise (the
channel dimension d/h*h of the merged tensor is rewritten to d via the
divisibility hypothesis). -/
theorem merge_split_roundtrip (bt n d : ℕ) (x : Tensor3 bt n d) (h : ℕ)
    (hd : h ∣ d) (b : Fin bt) (i : Fin n) (c : Fin d) :
    transpose_output (transpose_qkv x h) b i
        (Fin.cast (Nat.div_mul_cancel hd).symm c) = x b i c := by
  have hd0 : 0 < d := c.pos
  have hh : 0 < h := by
    rcases Nat.eq_zero_or_pos h with h0 | h0
    · subst h0
      exact absurd (Nat.eq_zero_of_zero_dvd hd) (by omega)
    · exact h0
  have hq : (c : ℕ) / (d / h) < h :=
    Nat.div_lt_of_lt_mul (by rw [Nat.div_mul_cancel hd]; exact c.isLt)
  have e1 : ((b : ℕ) * h + (c : ℕ) / (d / h)) / h = (b : ℕ) := by
    rw [Nat.add_comm, Nat.add_mul_div_right _ _ hh, Nat.div_eq_of_lt hq,
      Nat.zero_add]
  have e2 : ((b : ℕ) * h + (c : ℕ) / (d / h)) % h = (c : ℕ) / (d / h) := by
    rw [Nat.add_comm, Nat.add_mul_mod_self_right, Nat.mod_eq_of_lt hq]
  have e3 : (c : ℕ) / (d / h) * (d / h) + (c : ℕ) % (d / h) = (c : ℕ) := by
    rw [Nat.mul_comm]
    exact Nat.div_add_mod _ _
  have key : ∀ (a : Fin bt) (e : Fin d), (a : ℕ) = (b : ℕ) → (e : ℕ) = (c : ℕ) →
      x a i e = x b i c := by
    intro a e ha he
    have h1 : a = b := Fin.ext ha
    have h2 : e = c := Fin.ext he
    rw [h1, h2]
  simp only [transpose_output, transpose_qkv, Fin.coe_cast]
  apply key
  · exact e1
  · show ((b : ℕ) * h + (c : ℕ) / (d / h)) % h * (d / h) + (c : ℕ) % (d / h)
        = (c : ℕ)
    rw [e2]
    exact e3

/-- Witness for claim C6 at the concrete tensor x_c6 of channel width 4 with
head count 2, at batch 0, position 0, channel 3. -/
theorem merge_split_roundtrip_witness :
    (2 ∣ 4) ∧
      transpose_output (transpose_qkv x_c6 2) 0 0
          (Fin.cast (Nat.div_mul_cancel (by norm_num : 2 ∣ 4)).symm 3) =
        x_c6 0 0 3 :=
  ⟨by norm_num, merge_split_roundtrip 1 1 4 x_c6 2 (by norm_num) 0 0 3⟩

/-- Claim C7 (counterexample): after an optimizer step that changes the
trainable query weight Q_mat.weight from the zero matrix to the all-ones
matrix, a subsequent forward pass still uses the old query: the Q it records
as used (Q_alignment, set to the Q of the call) is the zero matrix while the
trainable weight now holds 1.  The update is not reflected in the Q used by
forward, contradicting the claim. -/
theorem query_update_not_reflected_counterexample :
    ta_c7_updated.Q_mat_weight 0 0 = 1 ∧
      ((ta_c7_updated.forward_base H_c7).2.2).Q_alignment =
        some (.mat ⟨1, 1, fun _ _ => (0 : ℝ)⟩) ∧
      (1 : ℝ) ≠ 0 :=
  ⟨rfl, rfl, by norm_num⟩

/-- Claim C7 (amended): the query used in forward passes is self.Q, a clone of
Q_mat.weight taken once at construction; an optimizer step updates the
registered parameter Q_mat.weight but leaves the Q used on subsequent forward
calls unchanged at its construction-time value. -/
theorem query_update_not_reflected (n ed d bt s : ℕ)
    (m : TargetAttention n ed d) (Kw' Vw' : Tensor2 d d)
    (Kb' Vb' : Fin d → ℝ) (Qw' : Tensor2 n d) (H : Tensor3 bt d s) :
    (m.optimizer_step Kw' Vw' Kb' Vb' Qw').Q = m.Q ∧
      (((m.optimizer_step Kw' Vw' Kb' Vb' Qw').forward_base H).2.2).Q_alignment =
        some (.mat ⟨n, d, m.Q⟩) :=
  ⟨rfl, rfl⟩

/-- Claim C8 (counterexample): a forward pass does mutate instance state: on a
freshly constructed module K_alignment is None, and after one forward call it
holds the K of that call, so it is not identical before and after. -/
theorem forward_mutates_alignment_counterexample :
    ta_scenario.K_alignment = none ∧
      ((ta_scenario.forward_base H_scenario).2.2).K_alignment ≠
        ta_scenario.K_alignment :=
  ⟨rfl, fun hcontra => Option.noConfusion hcontra⟩

/-- Claim C8 (amended): a forward pass leaves every parameter, buffer and
configuration field of the module unchanged, with exactly two exceptions: the
instance attributes K_alignment and Q_alignment, which are overwritten with
the K and Q of the current call. -/
theorem forward_mutates_only_alignment (n ed d bt s : ℕ)
    (m : TargetAttention n ed d) (H : Tensor3 bt d s) :
    ((m.forward_base H).2.2).scale = m.scale ∧
      ((m.forward_base H).2.2).multihead = m.multihead ∧
      ((m.forward_base H).2.2).num_heads = m.num_heads ∧
      ((m.forward_base H).2.2).K_weight = m.K_weight ∧
      ((m.forward_base H).2.2).K_bias = m.K_bias ∧
      ((m.forward_base H).2.2).V_weight = m.V_weight ∧
      ((m.forward_base H).2.2).V_bias = m.V_bias ∧
      ((m.forward_base H).2.2).Q_mat_weight = m.Q_mat_weight ∧
      ((m.forward_base H).2.2).Q = m.Q ∧
      ((m.forward_base H).2.2).W_k = m.W_k ∧
      ((m.forward_base H).2.2).W_v = m.W_v ∧
      ((m.forward_base H).2.2).W_q = m.W_q ∧
      ((m.forward_base H).2.2).K_alignment =
        some (.t3 ⟨bt, s, d, permute021 (eluT (conv1d_k1 m.K_weight m.K_bias H))⟩) ∧
      ((m.forward_base H).2.2).Q_alignment = some (.mat ⟨n, d, m.Q⟩) :=
  ⟨rfl, rfl, rfl, rfl, rfl, rfl, rfl, rfl, rfl, rfl, rfl, rfl, rfl, rfl⟩

/-- Claim C9 (counterexample): calling forward with an input whose channel
axis is 7 while latent_doc_dim is 8 raises the torch RuntimeError of the
Conv1d projection, not an exception named ShapeMismatchError: no such class
exists in the source. -/
theorem shape_mismatch_error_counterexample :
    ta_scenario.forward_checked H_bad =
        .error (.runtimeError "Conv1d: expected input channels to equal in_channels") ∧
      PyError.runtimeError "Conv1d: expected input channels to equal in_channels" ≠
        PyError.shapeMismatchError "ShapeMismatchError" :=
  ⟨rfl, by decide⟩

/-- Claim C9 (amended): for every input H whose channel axis does not equal
the configured latent_doc_dim, the forward call of the attention layer fails
at call time with the RuntimeError of the first Conv1d projection, and no
(C, A) result is produced; the exception is not a ShapeMismatchError, which
the source never defines. -/
theorem wrong_channels_raises_at_call (n ed d : ℕ) (m : TargetAttention n ed d)
    (H : DynTensor3) (hch : H.d1 ≠ d) :
    m.forward_checked H =
      .error (.runtimeError "Conv1d: expected input channels to equal in_channels") := by
  unfold TargetAttention.forward_checked
  rw [dif_neg hch]

/-- Witness for the amended claim C9 at the concrete input H_bad with channel
axis 7 against latent_doc_dim 8. -/
theorem wrong_channels_raises_at_call_witness :
    H_bad.d1 ≠ 8 ∧
      ta_scenario.forward_checked H_bad =
        .error (.runtimeError "Conv1d: expected input channels to equal in_channels") :=
  ⟨by decide, wrong_channels_raises_at_call 4 8 8 ta_scenario H_bad (by decide)⟩

/-- Claim C10: for every dispatcher state with multihead disabled and every
input H, the forward call raises an exception and never returns a (C, A)
pair: the callee lookup fails for an unassigned attention_layer, the local Q
is referenced before assignment for non-target variants, and for the target
variant the attention layer is invoked with a keyword argument Q that its
forward signature (which accepts only H) does not take. -/
theorem dispatcher_forward_always_raises (n ed d : ℕ)
    (st : AttentionState n ed d) (H : DynTensor3)
    (hmh : st.multihead = false) :
    ∃ e : PyError, Attention.forward_no_multihead st H = .error e := by
  unfold Attention.forward_no_multihead
  by_cases ht : st.att_module = "target"
  · rw [if_pos ht]
    cases st.Q with
    | none => exact ⟨_, rfl⟩
    | some q =>
      cases st.attention_layer with
      | none => exact ⟨_, rfl⟩
      | some l => exact ⟨_, rfl⟩
  · rw [if_neg ht]
    cases st.attention_layer with
    | none => exact ⟨_, rfl⟩
    | some l => exact ⟨_, rfl⟩

/-- Witness for claim C10 at the concrete state st_label (variant "label",
multihead disabled) and the scenario-shaped input. -/
theorem dispatcher_forward_always_raises_witness :
    st_label.multihead = false ∧
      ∃ e : PyError, Attention.forward_no_multihead st_label H_dyn = .error e :=
  ⟨rfl, dispatcher_forward_always_raises 4 8 8 st_label H_dyn rfl⟩

end AttnMech
